import Mathlib

/-!
Verification development for the frigate process-orchestration and
detection-dispatch pipeline.  The definitions below are a shallow embedding of
`frigate/app.py` (shared-memory resource planning in `check_shm`, segment
allocation in `start_detectors`, the `start` and `stop` sequences) and of
`frigate/detectors/plugins/onnx.py` (`ONNXDetector.detect_raw`).  Machine
floating point from the Python source is modelled with exact rationals, with
the Python `round(x, 1)` rendered as round-half-to-even at one decimal digit and
the Python `int(x)` as truncation toward zero.
-/

namespace Frigate

/-- Round a rational to the nearest integer, ties to even — the behaviour of
the Python builtin `round` on an exact value. -/
def roundHalfEven (q : ℚ) : ℤ :=
  let f : ℤ := ⌊q⌋
  let r : ℚ := q - f
  if r < 1/2 then f
  else if 1/2 < r then f + 1
  else if f % 2 = 0 then f else f + 1

/-- the Python `round(x, 1)`: round to one decimal digit, ties to even. -/
def pyRound1 (q : ℚ) : ℚ := (roundHalfEven (10 * q) : ℚ) / 10

/-- the Python `int(x)` on a float: truncation toward zero. -/
def pyTrunc (q : ℚ) : ℤ := if q < 0 then ⌈q⌉ else ⌊q⌋

/-- The `detect` sub-config of a camera: the detection resolution
(`camera.detect.width`, `camera.detect.height`). -/
structure DetectConfig where
  width : ℕ
  height : ℕ
deriving DecidableEq

/-- The fields of a camera config read by `check_shm`. -/
structure CameraConfig where
  enabled : Bool
  detect : DetectConfig
deriving DecidableEq

/-- The fields of the birdseye config read by `check_shm`. -/
structure BirdseyeConfig where
  restream : Bool
deriving DecidableEq

/-- The slice of `FrigateConfig` that `check_shm` reads. -/
structure ShmConfig where
  cameras : List CameraConfig
  birdseye : BirdseyeConfig
deriving DecidableEq

/-- `min_req_shm` in `check_shm`: 40 MB for log files plus 10 MB for the nginx
cache, plus 8 MB more when birdseye restream is enabled. -/
def minReqShm (cfg : ShmConfig) : ℚ :=
  (40 + 10) + (if cfg.birdseye.restream then 8 else 0)

/-- Per-camera frame size in MB:
`round((camera.detect.width * camera.detect.height * 1.5 + 270480) / 1048576, 1)`. -/
def cameraFrameSizeMb (c : CameraConfig) : ℚ :=
  pyRound1 (((c.detect.width : ℚ) * (c.detect.height : ℚ) * (3/2) + 270480) / 1048576)

/-- `cam_total_frame_size`: the loop in `check_shm` accumulates the frame size
of every enabled camera. -/
def camTotalFrameSize (cfg : ShmConfig) : ℚ :=
  ((cfg.cameras.filter (fun c => c.enabled)).map cameraFrameSizeMb).sum

/-- `total_shm = round(shutil.disk_usage("/dev/shm").total / pow(2, 20), 1)`,
taking the byte total of /dev/shm as input. -/
def totalShmMb (shmBytes : ℕ) : ℚ := pyRound1 ((shmBytes : ℚ) / 1048576)

/-- `check_shm`: computes `shm_frame_count = min(50, int(available_shm /
cam_total_frame_size))`.  `none` models the `ZeroDivisionError` Python raises
when `cam_total_frame_size` is `0.0` (no enabled camera); `some v` models a
normal return with `self.shm_frame_count = v`. -/
def check_shm (cfg : ShmConfig) (shmBytes : ℕ) : Option ℤ :=
  let total_shm := totalShmMb shmBytes
  let available_shm := total_shm - minReqShm cfg
  let sz := camTotalFrameSize cfg
  if sz = 0 then none
  else some (min 50 (pyTrunc (available_shm / sz)))

/-- Whether `check_shm` logs the "SHM size too small" warning: it does exactly
when the computed `shm_frame_count` is below 10. -/
def check_shm_warns (cfg : ShmConfig) (shmBytes : ℕ) : Bool :=
  match check_shm cfg shmBytes with
  | some v => v < 10
  | none => false

/-- The frames-per-camera formula as the spec words it: `frames_per_camera =
min(50, floor(available / total_frame_size))`, i.e. with a mathematical floor
instead of the Python truncation toward zero.  Kept separate from `check_shm` so
the two can be compared. -/
def check_shm_specFormula (cfg : ShmConfig) (shmBytes : ℕ) : Option ℤ :=
  let total_shm := totalShmMb shmBytes
  let available_shm := total_shm - minReqShm cfg
  let sz := camTotalFrameSize cfg
  if sz = 0 then none
  else some (min 50 ⌊available_shm / sz⌋)

/-- Model families of `frigate.detectors.detector_config.ModelTypeEnum`
(defined outside the two embedded files); `detect_raw` only distinguishes
`yolonas` from everything else. -/
inductive ModelTypeEnum
  | ssd
  | yolox
  | yolonas
  | yolov9
deriving DecidableEq

/-- Rendering of a `ModelTypeEnum` member inside the f-string of the error
message raised by `detect_raw`. -/
def modelTypeName : ModelTypeEnum → String
  | .ssd => "ssd"
  | .yolox => "yolox"
  | .yolonas => "yolonas"
  | .yolov9 => "yolov9"

/-- One row of the raw yolonas model output, destructured in `detect_raw` as
`(_, x_min, y_min, x_max, y_max, confidence, class_id)`; the leading tuple
element is discarded by the code and therefore not modelled. -/
structure Prediction where
  x_min : ℚ
  y_min : ℚ
  x_max : ℚ
  y_max : ℚ
  confidence : ℚ
  class_id : ℚ
deriving DecidableEq

/-- A zero row of the pre-allocated `np.zeros((20, 6), np.float32)` array. -/
def zeroRow : List ℚ := [0, 0, 0, 0, 0, 0]

/-- The row written by `detect_raw` for a valid prediction:
`[class_id, confidence, y_min / h, x_min / w, y_max / h, x_max / w]`. -/
def yolonasRow (h w : ℚ) (p : Prediction) : List ℚ :=
  [p.class_id, p.confidence, p.y_min / h, p.x_min / w, p.y_max / h, p.x_max / w]

/-- The fill loop of `detect_raw`: starting from a zero array of `fuel` rows
(the code uses 20), write one row per prediction in order, and break at the
first prediction whose `class_id` is negative, leaving the remaining rows
zero-filled; the `i == 20` check stops the loop when the array is full. -/
def detectionRows (h w : ℚ) : List Prediction → ℕ → List (List ℚ)
  | _, 0 => []
  | [], n + 1 => List.replicate (n + 1) zeroRow
  | p :: ps, n + 1 =>
    if p.class_id < 0 then List.replicate (n + 1) zeroRow
    else yolonasRow h w p :: detectionRows h w ps n

/-- `ONNXDetector.detect_raw` post-processing: for a `yolonas` model the raw
output rows are folded into the canonical 20×6 array; for every other model
type the method raises (`Except.error` carries the message of the raised
exception). `h`/`w` are `self.h`/`self.w`, the configured model height and
width; `preds` is `tensor_output[0]`. -/
def detect_raw (mt : ModelTypeEnum) (h w : ℚ) (preds : List Prediction) :
    Except String (List (List ℚ)) :=
  if mt = ModelTypeEnum.yolonas then
    Except.ok (detectionRows h w preds 20)
  else
    Except.error (modelTypeName mt ++
      " is currently not supported for rocm. See the docs for more info on supported models.")

/-- The number of rows of the output that `detect_raw` populates: the run of
leading predictions with non-negative class id, capped at the 20 available
rows. -/
def validCount (preds : List Prediction) : ℕ :=
  min (preds.takeWhile (fun p => !(p.class_id < 0))).length 20

/-- The model dimensions of one configured detector
(`det.model.height`, `det.model.width`). -/
structure DetectorModel where
  height : ℕ
  width : ℕ
deriving DecidableEq

/-- A handle on a shared-memory segment as obtained in `start_detectors`:
its name, its byte size, and whether it was freshly created (`created = true`)
or attached to a pre-existing segment of the same name (`created = false`). -/
structure ShmHandle where
  name : String
  size : ℕ
  created : Bool
deriving DecidableEq

/-- `mp.shared_memory.SharedMemory` acquisition as performed in
`start_detectors`: try exclusive creation with the requested size; on
`FileExistsError` attach by name to the existing segment, which keeps the
size of the existing segment.  `env` lists the names and sizes of segments that
already exist. -/
def acquireShm (env : List (String × ℕ)) (nm : String) (sz : ℕ) : ShmHandle :=
  match env.lookup nm with
  | some existingSize => ⟨nm, existingSize, false⟩
  | none => ⟨nm, sz, true⟩

/-- The shared-memory allocation loop of `start_detectors`: for every camera
name, acquire the input segment named after the camera with size
`max(det.model.height * det.model.width * 3 for detectors)` and the output
segment named `out-<camera>` with size `20 * 6 * 4`.  When no detector is
configured, the Python `max([])` raises a `ValueError` that the
`except FileExistsError` handler does not catch (`Except.error`). -/
def start_detectors_shms (env : List (String × ℕ)) (cameraNames : List String)
    (detectors : List DetectorModel) : Except String (List ShmHandle) :=
  match (detectors.map (fun det => det.height * det.width * 3)).max? with
  | none => Except.error "max() arg is an empty sequence"
  | some largest_frame =>
    Except.ok (cameraNames.flatMap (fun nm =>
      [acquireShm env nm largest_frame, acquireShm env ("out-" ++ nm) (20 * 6 * 4)]))

/-- The method calls of `FrigateApp.start`, in program order. -/
inductive StartStep
  | initLogger
  | ensureDirs
  | initConfig
  | setEnvironmentVars
  | setLogLevels
  | initQueues
  | initDatabase
  | initOnvif
  | initRecordingManager
  | initReviewSegmentManager
  | initEmbeddingsManager
  | initGo2rtc
  | bindDatabase
  | checkDbDataMigrations
  | initInterProcessCommunicator
  | initDispatcher
  | startDetectors
  | startVideoOutputProcessor
  | startPtzAutotracker
  | initHistoricalRegions
  | startDetectedFramesProcessor
  | startCameraProcessors
  | checkShm
  | startCameraCaptureProcesses
  | startAudioProcessors
  | startStorageMaintainer
  | initExternalEventProcessor
  | startStatsEmitter
  | initWebServer
  | startTimelineProcessor
  | startEventProcessor
  | startEventCleanup
  | startRecordCleanup
  | startWatchdog
  | initAuth
deriving DecidableEq

/-- The startup sequence executed by `FrigateApp.start` (the straight-line
success path, after argument parsing and config validation). -/
def startSequence : List StartStep :=
  [.initLogger, .ensureDirs, .initConfig, .setEnvironmentVars, .setLogLevels,
   .initQueues, .initDatabase, .initOnvif, .initRecordingManager,
   .initReviewSegmentManager, .initEmbeddingsManager, .initGo2rtc,
   .bindDatabase, .checkDbDataMigrations, .initInterProcessCommunicator,
   .initDispatcher, .startDetectors, .startVideoOutputProcessor,
   .startPtzAutotracker, .initHistoricalRegions, .startDetectedFramesProcessor,
   .startCameraProcessors, .checkShm, .startCameraCaptureProcesses,
   .startAudioProcessors, .startStorageMaintainer, .initExternalEventProcessor,
   .startStatsEmitter, .initWebServer, .startTimelineProcessor,
   .startEventProcessor, .startEventCleanup, .startRecordCleanup,
   .startWatchdog, .initAuth]

/-- The steps of `FrigateApp.stop`, in program order. -/
inductive StopStep
  | setStopEvent
  | finalizeEventRecords
  | finalizeReviewSegments
  | stopAudioProcess
  | stopCaptureProcesses
  | stopCameraProcessors
  | stopDetectors
  | closeDetectionQueue
  | joinDetectedFramesProcessor
  | closeDetectedFramesQueue
  | joinTimelineProcessor
  | joinEventProcessor
  | closeTimelineQueue
  | stopOutputProcessor
  | stopRecordingProcess
  | stopReviewSegmentProcess
  | stopExternalEventProcessor
  | stopDispatcher
  | joinPtzAutotracker
  | joinEventCleanup
  | joinRecordCleanup
  | joinStatsEmitter
  | joinWatchdog
  | stopDatabase
  | saveEmbeddingsStats
  | stopInterProcessCommunicator
  | stopConfigUpdater
  | stopZmqProxy
  | releaseShms
  | stopLogProcess
deriving DecidableEq

/-- The shutdown sequence executed by `FrigateApp.stop`: set the stop event,
stamp end times on open Event and ReviewSegment records, terminate and join
the audio process, every capture process, every camera processor (closing its
frame queue), stop the detectors and close the detection queue, join the
remaining thread workers and close their queues, terminate and join the
output/recording/review processes, stop the external event processor and
dispatcher, join the cleanup/stats/watchdog threads, stop the database,
save embeddings stats, stop the communicators, close and unlink every
registered shared-memory segment, and finally terminate and join the log
process. -/
def stopSequence : List StopStep :=
  [.setStopEvent, .finalizeEventRecords, .finalizeReviewSegments,
   .stopAudioProcess, .stopCaptureProcesses, .stopCameraProcessors,
   .stopDetectors, .closeDetectionQueue, .joinDetectedFramesProcessor,
   .closeDetectedFramesQueue, .joinTimelineProcessor, .joinEventProcessor,
   .closeTimelineQueue, .stopOutputProcessor, .stopRecordingProcess,
   .stopReviewSegmentProcess, .stopExternalEventProcessor, .stopDispatcher,
   .joinPtzAutotracker, .joinEventCleanup, .joinRecordCleanup,
   .joinStatsEmitter, .joinWatchdog, .stopDatabase, .saveEmbeddingsStats,
   .stopInterProcessCommunicator, .stopConfigUpdater, .stopZmqProxy,
   .releaseShms, .stopLogProcess]

/-- The runtime state of one registered shared-memory segment during
shutdown. -/
structure ShmState where
  name : String
  closed : Bool
  unlinked : Bool
deriving DecidableEq

/-- The release loop at the end of `FrigateApp.stop`: while the registry
`self.detection_shms` is non-empty, pop a segment, close it and unlink it.
Popping from the end processes the registry in reverse order and leaves it
empty; the result lists the segments in the order they were released. -/
def releaseAllShms (segs : List ShmState) : List ShmState :=
  segs.reverse.map (fun s => { s with closed := true, unlinked := true })

/-- A single camera at 1280x720, enabled. -/
def cam720 : CameraConfig := ⟨true, ⟨1280, 720⟩⟩

/-- A config with one enabled 1280x720 camera and birdseye restream off. -/
def oneCamConfig : ShmConfig := ⟨[cam720], ⟨false⟩⟩

/-- Spec scenario: birdseye restream on, two 1280x720 cameras. -/
def twoCamRestreamConfig : ShmConfig := ⟨[cam720, cam720], ⟨true⟩⟩

/-- Spec scenario: restream off, three cameras whose frame sizes are 2.0 MB
each (1280x960), summing to 6 MB. -/
def threeCamConfig : ShmConfig :=
  ⟨[⟨true, ⟨1280, 960⟩⟩, ⟨true, ⟨1280, 960⟩⟩, ⟨true, ⟨1280, 960⟩⟩], ⟨false⟩⟩

/-- Raw model output with three valid rows followed by the `class_id = -1`
end-of-detections sentinel (field order: x_min, y_min, x_max, y_max,
confidence, class_id). -/
def examplePreds : List Prediction :=
  [⟨10, 20, 110, 220, 9/10, 1⟩,
   ⟨5, 15, 105, 215, 4/5, 2⟩,
   ⟨0, 0, 320, 320, 1/2, 0⟩,
   ⟨0, 0, 0, 0, 0, -1⟩]

/-- The default handle used for out-of-range `getD` reads on handle lists. -/
def noHandle : ShmHandle := ⟨"", 0, false⟩

/-- The default prediction used for out-of-range `getD` reads. -/
def noPrediction : Prediction := ⟨0, 0, 0, 0, 0, 0⟩

/- ### Helper lemmas -/

lemma floor_le_roundHalfEven (q : ℚ) : ⌊q⌋ ≤ roundHalfEven q := by
  unfold roundHalfEven
  dsimp only
  split
  · exact le_refl _
  · split
    · exact le_of_lt (lt_add_one _)
    · split
      · exact le_refl _
      · exact le_of_lt (lt_add_one _)

lemma pyRound1_nonneg {q : ℚ} (hq : 0 ≤ q) : 0 ≤ pyRound1 q := by
  unfold pyRound1
  have h0 : (0 : ℤ) ≤ ⌊10 * q⌋ := Int.le_floor.mpr (by push_cast; linarith)
  have h1 : (0 : ℤ) ≤ roundHalfEven (10 * q) :=
    le_trans h0 (floor_le_roundHalfEven _)
  have h2 : (0 : ℚ) ≤ (roundHalfEven (10 * q) : ℚ) := by exact_mod_cast h1
  linarith

lemma cameraFrameSizeMb_pos (c : CameraConfig) : 0 < cameraFrameSizeMb c := by
  unfold cameraFrameSizeMb pyRound1
  have hwh : (0 : ℚ) ≤ (c.detect.width : ℚ) * (c.detect.height : ℚ) * (3 / 2) := by
    positivity
  have harg : (2 : ℚ) ≤
      10 * (((c.detect.width : ℚ) * (c.detect.height : ℚ) * (3 / 2) + 270480) / 1048576) := by
    rw [mul_div_assoc', le_div_iff₀ (by norm_num : (0 : ℚ) < 1048576)]
    nlinarith
  have h0 : (2 : ℤ) ≤
      ⌊10 * (((c.detect.width : ℚ) * (c.detect.height : ℚ) * (3 / 2) + 270480) / 1048576)⌋ :=
    Int.le_floor.mpr (by push_cast; linarith)
  have h1 := floor_le_roundHalfEven
    (10 * (((c.detect.width : ℚ) * (c.detect.height : ℚ) * (3 / 2) + 270480) / 1048576))
  have h2 : (2 : ℤ) ≤ roundHalfEven
      (10 * (((c.detect.width : ℚ) * (c.detect.height : ℚ) * (3 / 2) + 270480) / 1048576)) :=
    le_trans h0 h1
  have h3 : (2 : ℚ) ≤ (roundHalfEven
      (10 * (((c.detect.width : ℚ) * (c.detect.height : ℚ) * (3 / 2) + 270480) / 1048576)) : ℚ) := by
    exact_mod_cast h2
  linarith

lemma camTotalFrameSize_nonneg (cfg : ShmConfig) : 0 ≤ camTotalFrameSize cfg := by
  unfold camTotalFrameSize
  apply List.sum_nonneg
  intro x hx
  obtain ⟨c, _, rfl⟩ := List.mem_map.mp hx
  exact (cameraFrameSizeMb_pos c).le

lemma camTotalFrameSize_pos {cfg : ShmConfig}
    (hcam : ∃ c ∈ cfg.cameras, c.enabled = true) : 0 < camTotalFrameSize cfg := by
  obtain ⟨c, hc, hen⟩ := hcam
  unfold camTotalFrameSize
  apply List.sum_pos
  · intro x hx
    obtain ⟨d, _, rfl⟩ := List.mem_map.mp hx
    exact cameraFrameSizeMb_pos d
  · have hmem : c ∈ cfg.cameras.filter (fun c => c.enabled) :=
      List.mem_filter.mpr ⟨hc, hen⟩
    exact List.ne_nil_of_mem (List.mem_map_of_mem cameraFrameSizeMb hmem)

lemma pyTrunc_eq_floor {q : ℚ} (hq : 0 ≤ q) : pyTrunc q = ⌊q⌋ := by
  unfold pyTrunc
  rw [if_neg (not_lt.mpr hq)]

lemma pyTrunc_nonneg {q : ℚ} (hq : 0 ≤ q) : 0 ≤ pyTrunc q := by
  rw [pyTrunc_eq_floor hq]
  exact Int.le_floor.mpr (by push_cast; linarith)

/- ### Evaluation lemmas for concrete inputs

Rational arithmetic with `Int.floor` does not reduce inside the kernel, so
concrete runs of `check_shm` are evaluated through the following lemmas. -/

lemma roundHalfEven_eq_down {q : ℚ} {f : ℤ} (h1 : (f : ℚ) ≤ q)
    (h2 : q < (f : ℚ) + 1/2) : roundHalfEven q = f := by
  have hf : ⌊q⌋ = f := Int.floor_eq_iff.mpr ⟨h1, by linarith⟩
  unfold roundHalfEven
  dsimp only
  rw [hf, if_pos (by linarith)]

lemma roundHalfEven_eq_up {q : ℚ} {f : ℤ} (h1 : (f : ℚ) + 1/2 < q)
    (h2 : q < (f : ℚ) + 1) : roundHalfEven q = f + 1 := by
  have hf : ⌊q⌋ = f := Int.floor_eq_iff.mpr ⟨by linarith, h2⟩
  unfold roundHalfEven
  dsimp only
  rw [hf, if_neg (by linarith), if_pos (by linarith)]

lemma roundHalfEven_intCast (n : ℤ) : roundHalfEven (n : ℚ) = n :=
  roundHalfEven_eq_down (by norm_num) (by norm_num)

lemma pyTrunc_neg_eq {q : ℚ} {z : ℤ} (h0 : q < 0) (h1 : (z : ℚ) - 1 < q)
    (h2 : q ≤ (z : ℚ)) : pyTrunc q = z := by
  unfold pyTrunc
  rw [if_pos h0]
  exact Int.ceil_eq_iff.mpr ⟨by exact_mod_cast h1, h2⟩

lemma pyTrunc_pos_eq {q : ℚ} {z : ℤ} (h0 : 0 ≤ q) (h1 : (z : ℚ) ≤ q)
    (h2 : q < (z : ℚ) + 1) : pyTrunc q = z := by
  rw [pyTrunc_eq_floor h0]
  exact Int.floor_eq_iff.mpr ⟨h1, by exact_mod_cast h2⟩

/-- `check_shm` with its let-bindings expanded. -/
lemma check_shm_eq (cfg : ShmConfig) (shmBytes : ℕ) :
    check_shm cfg shmBytes =
      if camTotalFrameSize cfg = 0 then none
      else some (min 50
        (pyTrunc ((totalShmMb shmBytes - minReqShm cfg) / camTotalFrameSize cfg))) :=
  rfl

/-- `check_shm_specFormula` with its let-bindings expanded. -/
lemma check_shm_specFormula_eq (cfg : ShmConfig) (shmBytes : ℕ) :
    check_shm_specFormula cfg shmBytes =
      if camTotalFrameSize cfg = 0 then none
      else some (min 50
        ⌊(totalShmMb shmBytes - minReqShm cfg) / camTotalFrameSize cfg⌋) :=
  rfl

/-- A 1280x720 detection frame occupies `round(1652880/1048576, 1) = 1.6` MB. -/
lemma cameraFrameSizeMb_720 : cameraFrameSizeMb ⟨true, ⟨1280, 720⟩⟩ = 8/5 := by
  unfold cameraFrameSizeMb pyRound1
  have h : (10 : ℚ) * ((((1280 : ℕ) : ℚ) * ((720 : ℕ) : ℚ) * (3/2) + 270480) / 1048576) =
      1033050/65536 := by
    norm_num
  rw [h, roundHalfEven_eq_up (f := 15) (by norm_num) (by norm_num)]
  norm_num

/-- A 1280x960 detection frame occupies `round(2113680/1048576, 1) = 2.0` MB. -/
lemma cameraFrameSizeMb_960 : cameraFrameSizeMb ⟨true, ⟨1280, 960⟩⟩ = 2 := by
  unfold cameraFrameSizeMb pyRound1
  have h : (10 : ℚ) * ((((1280 : ℕ) : ℚ) * ((960 : ℕ) : ℚ) * (3/2) + 270480) / 1048576) =
      1321050/65536 := by
    norm_num
  rw [h, roundHalfEven_eq_down (f := 20) (by norm_num) (by norm_num)]
  norm_num

lemma totalShmMb_zero : totalShmMb 0 = 0 := by
  unfold totalShmMb pyRound1
  have h : (10 : ℚ) * (((0 : ℕ) : ℚ) / 1048576) = ((0 : ℤ) : ℚ) := by norm_num
  rw [h, roundHalfEven_intCast]
  norm_num

lemma totalShmMb_256MB : totalShmMb (256 * 1048576) = 256 := by
  unfold totalShmMb pyRound1
  have h : (10 : ℚ) * (((256 * 1048576 : ℕ) : ℚ) / 1048576) = ((2560 : ℤ) : ℚ) := by
    norm_num
  rw [h, roundHalfEven_intCast]
  norm_num

lemma totalShmMb_100MB : totalShmMb (100 * 1048576) = 100 := by
  unfold totalShmMb pyRound1
  have h : (10 : ℚ) * (((100 * 1048576 : ℕ) : ℚ) / 1048576) = ((1000 : ℤ) : ℚ) := by
    norm_num
  rw [h, roundHalfEven_intCast]
  norm_num

lemma camTotalFrameSize_oneCam : camTotalFrameSize oneCamConfig = 8/5 := by
  unfold camTotalFrameSize oneCamConfig cam720
  simp [cameraFrameSizeMb_720]

lemma camTotalFrameSize_twoCam : camTotalFrameSize twoCamRestreamConfig = 16/5 := by
  unfold camTotalFrameSize twoCamRestreamConfig cam720
  simp [cameraFrameSizeMb_720]
  norm_num

lemma camTotalFrameSize_threeCam : camTotalFrameSize threeCamConfig = 6 := by
  unfold camTotalFrameSize threeCamConfig
  simp [cameraFrameSizeMb_960]
  norm_num

/-- With 0 bytes of /dev/shm and one enabled 1280x720 camera,
`check_shm` computes `min(50, int(-50 / 1.6)) = min(50, int(-31.25)) = -31`. -/
lemma check_shm_oneCam_zero : check_shm oneCamConfig 0 = some (-31) := by
  rw [check_shm_eq, camTotalFrameSize_oneCam, totalShmMb_zero, if_neg (by norm_num)]
  have hq : ((0 : ℚ) - minReqShm oneCamConfig) / (8/5) = -125/4 := by
    norm_num [minReqShm, oneCamConfig]
  rw [hq, pyTrunc_neg_eq (z := -31) (by norm_num) (by norm_num) (by norm_num)]
  decide

/-- The same input under the floor formula of the spec:
`min(50, floor(-31.25)) = -32`. -/
lemma check_shm_specFormula_oneCam_zero :
    check_shm_specFormula oneCamConfig 0 = some (-32) := by
  rw [check_shm_specFormula_eq, camTotalFrameSize_oneCam, totalShmMb_zero,
    if_neg (by norm_num)]
  have hq : ((0 : ℚ) - minReqShm oneCamConfig) / (8/5) = -125/4 := by
    norm_num [minReqShm, oneCamConfig]
  have hf : ⌊(-125/4 : ℚ)⌋ = -32 := Int.floor_eq_iff.mpr ⟨by norm_num, by norm_num⟩
  rw [hq, hf]
  decide

/-- Scenario: 256 MB of /dev/shm, birdseye restream on (reserve 58 MB,
available 198 MB), two 1280x720 cameras (3.2 MB per frame set):
`min(50, int(198 / 3.2)) = min(50, 61) = 50`. -/
lemma check_shm_scenario1 :
    check_shm twoCamRestreamConfig (256 * 1048576) = some 50 := by
  rw [check_shm_eq, camTotalFrameSize_twoCam, totalShmMb_256MB, if_neg (by norm_num)]
  have hq : ((256 : ℚ) - minReqShm twoCamRestreamConfig) / (16/5) = 495/8 := by
    norm_num [minReqShm, twoCamRestreamConfig]
  rw [hq, pyTrunc_pos_eq (z := 61) (by norm_num) (by norm_num) (by norm_num)]
  decide

/-- Scenario: 100 MB of /dev/shm, restream off (reserve 50 MB, available
50 MB), three cameras totalling 6 MB per frame set:
`min(50, int(50 / 6)) = 8`. -/
lemma check_shm_scenario2 :
    check_shm threeCamConfig (100 * 1048576) = some 8 := by
  rw [check_shm_eq, camTotalFrameSize_threeCam, totalShmMb_100MB, if_neg (by norm_num)]
  have hq : ((100 : ℚ) - minReqShm threeCamConfig) / 6 = 25/3 := by
    norm_num [minReqShm, threeCamConfig]
  rw [hq, pyTrunc_pos_eq (z := 8) (by norm_num) (by norm_num) (by norm_num)]
  decide

/- ### Claim theorems -/

/-- C1 (counterexample): with a /dev/shm of 0 bytes and a single enabled
1280x720 camera, `check_shm` computes `min(50, int(-50 / 1.6)) = -31`, a
frames-per-camera value outside the claimed range [0, 50]. -/
theorem check_shm_out_of_range_cex :
    check_shm oneCamConfig 0 = some (-31) ∧ ¬ (0 ≤ (-31 : ℤ)) :=
  ⟨check_shm_oneCam_zero, by decide⟩

/-- C1 (amended): whenever the rounded /dev/shm capacity in MB is at least the
reserved minimum and at least one camera is enabled, the frames-per-camera
value computed by `check_shm` lies in the inclusive range [0, 50]. -/
theorem check_shm_frames_in_range (cfg : ShmConfig) (shmBytes : ℕ)
    (hcam : ∃ c ∈ cfg.cameras, c.enabled = true)
    (hshm : minReqShm cfg ≤ totalShmMb shmBytes) :
    ∃ v, check_shm cfg shmBytes = some v ∧ 0 ≤ v ∧ v ≤ 50 := by
  have hpos := camTotalFrameSize_pos hcam
  have hdiv : 0 ≤ (totalShmMb shmBytes - minReqShm cfg) / camTotalFrameSize cfg :=
    div_nonneg (by linarith) hpos.le
  refine ⟨min 50 (pyTrunc ((totalShmMb shmBytes - minReqShm cfg) / camTotalFrameSize cfg)),
    ?_, ?_, ?_⟩
  · unfold check_shm
    rw [if_neg hpos.ne']
  · exact le_min (by norm_num) (pyTrunc_nonneg hdiv)
  · exact min_le_left _ _

/-- C1 (witness): the amended range theorem applied to 256 MB of /dev/shm with
two enabled 1280x720 cameras. -/
theorem check_shm_frames_in_range_witness :
    ∃ v, check_shm twoCamRestreamConfig (256 * 1048576) = some v ∧ 0 ≤ v ∧ v ≤ 50 :=
  check_shm_frames_in_range twoCamRestreamConfig (256 * 1048576)
    (by decide)
    (by rw [totalShmMb_256MB]; norm_num [minReqShm, twoCamRestreamConfig])

/-- C2 (counterexample): on a config with one enabled 1280x720 camera and
0 bytes of /dev/shm, `check_shm` returns -31 (Python `int` truncation toward
zero) while the spec formula `min(50, floor(available / total_frame_size))`
gives -32, so the code does not compute the claimed floor formula. -/
theorem check_shm_floor_formula_cex :
    check_shm oneCamConfig 0 = some (-31) ∧
    check_shm_specFormula oneCamConfig 0 = some (-32) ∧
    check_shm oneCamConfig 0 ≠ check_shm_specFormula oneCamConfig 0 := by
  refine ⟨check_shm_oneCam_zero, check_shm_specFormula_oneCam_zero, ?_⟩
  rw [check_shm_oneCam_zero, check_shm_specFormula_oneCam_zero]
  decide

/-- C2 (amended): `check_shm` computes
`min(50, floor(available / total_frame_size))` — with the reserve of 40+10 MB
plus 8 MB when birdseye restream is enabled and per-camera sizes
`round((w*h*1.5 + 270480)/1048576, 1)` — whenever the available capacity is
non-negative (in general the Python `int` truncates toward zero instead of
flooring); in particular the 256 MB restream scenario yields 50 frames per
camera and the 100 MB three-camera scenario yields 8. -/
theorem check_shm_matches_spec_formula :
    (∀ (cfg : ShmConfig) (shmBytes : ℕ), (∃ c ∈ cfg.cameras, c.enabled = true) →
        minReqShm cfg ≤ totalShmMb shmBytes →
        check_shm cfg shmBytes = check_shm_specFormula cfg shmBytes) ∧
    check_shm twoCamRestreamConfig (256 * 1048576) = some 50 ∧
    check_shm threeCamConfig (100 * 1048576) = some 8 := by
  refine ⟨?_, check_shm_scenario1, check_shm_scenario2⟩
  intro cfg shmBytes hcam hshm
  have hpos := camTotalFrameSize_pos hcam
  have hdiv : 0 ≤ (totalShmMb shmBytes - minReqShm cfg) / camTotalFrameSize cfg :=
    div_nonneg (by linarith) hpos.le
  unfold check_shm check_shm_specFormula
  rw [if_neg hpos.ne', if_neg hpos.ne', pyTrunc_eq_floor hdiv]

/-- C2 (witness): the formula equivalence applied to the 256 MB restream
scenario with two enabled 1280x720 cameras. -/
theorem check_shm_matches_spec_formula_witness :
    check_shm twoCamRestreamConfig (256 * 1048576) =
      check_shm_specFormula twoCamRestreamConfig (256 * 1048576) :=
  check_shm_matches_spec_formula.1 twoCamRestreamConfig (256 * 1048576)
    (by decide)
    (by rw [totalShmMb_256MB]; norm_num [minReqShm, twoCamRestreamConfig])

/-- C3: a frames-per-camera value below 10 is a soft warning, not a failure:
`check_shm` still returns a value for every config with an enabled camera
(the value is stored as `self.shm_frame_count`, the ring-buffer depth), the
"too small" warning fires exactly when the stored value is below 10, and in
the startup sequence `check_shm` is followed by
`start_camera_capture_processes`, which launches the capture workers. -/
theorem check_shm_low_value_soft_warning :
    (∀ (cfg : ShmConfig) (shmBytes : ℕ), (∃ c ∈ cfg.cameras, c.enabled = true) →
        ∃ v, check_shm cfg shmBytes = some v) ∧
    (∀ (cfg : ShmConfig) (shmBytes : ℕ) (v : ℤ), check_shm cfg shmBytes = some v →
        v < 10 → check_shm_warns cfg shmBytes = true) ∧
    startSequence.indexOf StartStep.checkShm <
      startSequence.indexOf StartStep.startCameraCaptureProcesses := by
  refine ⟨?_, ?_, by decide⟩
  · intro cfg shmBytes hcam
    have hpos := camTotalFrameSize_pos hcam
    unfold check_shm
    rw [if_neg hpos.ne']
    exact ⟨_, rfl⟩
  · intro cfg shmBytes v hv hlt
    unfold check_shm_warns
    rw [hv]
    exact decide_eq_true hlt

/-- C3 (witness): the 100 MB three-camera scenario, where the computed value
is 8 < 10, still returns normally. -/
theorem check_shm_low_value_soft_warning_witness :
    ∃ v, check_shm threeCamConfig (100 * 1048576) = some v :=
  check_shm_low_value_soft_warning.1 threeCamConfig (100 * 1048576) (by decide)

/-- C10: when no camera is enabled the summed frame size is zero and
`check_shm` hits a `ZeroDivisionError` (modelled by `none`) instead of
returning a frames-per-camera value; conversely with at least one enabled
camera the computation is total. -/
theorem check_shm_zero_division_without_cameras :
    (∀ (cfg : ShmConfig) (shmBytes : ℕ), (∀ c ∈ cfg.cameras, c.enabled = false) →
        check_shm cfg shmBytes = none) ∧
    (∀ (cfg : ShmConfig) (shmBytes : ℕ), (∃ c ∈ cfg.cameras, c.enabled = true) →
        (check_shm cfg shmBytes).isSome = true) := by
  constructor
  · intro cfg shmBytes hall
    have hfilter : cfg.cameras.filter (fun c => c.enabled) = [] := by
      rw [List.filter_eq_nil_iff]
      intro c hc
      simp [hall c hc]
    unfold check_shm camTotalFrameSize
    rw [hfilter]
    simp
  · intro cfg shmBytes hcam
    have hpos := camTotalFrameSize_pos hcam
    unfold check_shm
    rw [if_neg hpos.ne']
    rfl

/-- C10 (witness): a config whose only camera is disabled makes `check_shm`
raise (return `none`), and one with an enabled camera returns a value. -/
theorem check_shm_zero_division_without_cameras_witness :
    check_shm ⟨[⟨false, ⟨1280, 720⟩⟩], ⟨false⟩⟩ (256 * 1048576) = none :=
  check_shm_zero_division_without_cameras.1 ⟨[⟨false, ⟨1280, 720⟩⟩], ⟨false⟩⟩
    (256 * 1048576) (by decide)

/- ### Lemmas about the detect_raw fill loop -/

lemma getD_replicate {α : Type _} (a : α) : ∀ (k i : ℕ),
    (List.replicate k a).getD i a = a := by
  intro k
  induction k with
  | zero => intro i; simp
  | succ k ih =>
    intro i
    cases i with
    | zero => simp [List.replicate]
    | succ j => simp [List.replicate, ih j]

lemma detectionRows_length (h w : ℚ) : ∀ (n : ℕ) (preds : List Prediction),
    (detectionRows h w preds n).length = n := by
  intro n
  induction n with
  | zero => intro preds; cases preds <;> rfl
  | succ n ih =>
    intro preds
    cases preds with
    | nil => simp [detectionRows]
    | cons p ps =>
      by_cases hp : p.class_id < 0
      · simp [detectionRows, hp]
      · simp [detectionRows, hp, ih]

lemma detectionRows_getD_lt (h w : ℚ) :
    ∀ (n : ℕ) (preds : List Prediction) (i : ℕ),
      i < min (preds.takeWhile fun p => !(p.class_id < 0)).length n →
      (detectionRows h w preds n).getD i zeroRow =
        yolonasRow h w (preds.getD i noPrediction) := by
  intro n
  induction n with
  | zero => intro preds i hi; simp at hi
  | succ n ih =>
    intro preds i hi
    cases preds with
    | nil => simp at hi
    | cons p ps =>
      by_cases hp : p.class_id < 0
      · rw [List.takeWhile_cons] at hi
        simp [decide_eq_true hp] at hi
      · rw [List.takeWhile_cons] at hi
        simp only [decide_eq_false hp, Bool.not_false, if_pos, List.length_cons] at hi
        cases i with
        | zero => simp [detectionRows, hp]
        | succ j =>
          have hj : j < min (ps.takeWhile fun p => !(p.class_id < 0)).length n := by
            omega
          simp only [detectionRows, if_neg hp, List.getD_cons_succ]
          exact ih ps j hj

lemma detectionRows_getD_ge (h w : ℚ) :
    ∀ (n : ℕ) (preds : List Prediction) (i : ℕ),
      min (preds.takeWhile fun p => !(p.class_id < 0)).length n ≤ i →
      (detectionRows h w preds n).getD i zeroRow = zeroRow := by
  intro n
  induction n with
  | zero => intro preds i _; cases preds <;> simp [detectionRows]
  | succ n ih =>
    intro preds i hi
    cases preds with
    | nil => simp [detectionRows, getD_replicate]
    | cons p ps =>
      by_cases hp : p.class_id < 0
      · simp [detectionRows, hp, getD_replicate]
      · rw [List.takeWhile_cons] at hi
        simp only [decide_eq_false hp, Bool.not_false, if_pos, List.length_cons] at hi
        cases i with
        | zero => omega
        | succ j =>
          simp only [detectionRows, if_neg hp, List.getD_cons_succ]
          exact ih ps j (by omega)

lemma validCount_examplePreds : validCount examplePreds = 3 := by
  norm_num [validCount, examplePreds, List.takeWhile]

/-- C4: for the `yolonas` model family, `detect_raw` returns a 20-row array
whose first `validCount preds` rows are
`[class_id, confidence, y_min/h, x_min/w, y_max/h, x_max/w]` in input order
(stopping at the first negative class id or after 20 rows) and whose rows after
the stop point are zero-filled; on three valid rows followed by a sentinel,
rows 0-2 carry the normalized detections and rows 3-19 are all zero. -/
theorem detect_raw_yolonas_canonical (h w : ℚ) (preds : List Prediction) :
    ∃ R, detect_raw ModelTypeEnum.yolonas h w preds = Except.ok R ∧
      R.length = 20 ∧
      (∀ i, i < validCount preds →
        R.getD i zeroRow = yolonasRow h w (preds.getD i noPrediction)) ∧
      (∀ i, validCount preds ≤ i → R.getD i zeroRow = zeroRow) ∧
      (∃ E, detect_raw ModelTypeEnum.yolonas 320 320 examplePreds = Except.ok E ∧
        E.getD 0 zeroRow = [1, 9/10, 1/16, 1/32, 11/16, 11/32] ∧
        E.getD 1 zeroRow = [2, 4/5, 3/64, 1/64, 43/64, 21/64] ∧
        E.getD 2 zeroRow = [0, 1/2, 0, 0, 1, 1] ∧
        (∀ i, 3 ≤ i → E.getD i zeroRow = zeroRow)) := by
  refine ⟨detectionRows h w preds 20, rfl, detectionRows_length h w 20 preds,
    fun i hi => detectionRows_getD_lt h w 20 preds i hi,
    fun i hi => detectionRows_getD_ge h w 20 preds i hi,
    detectionRows 320 320 examplePreds 20, rfl, ?_, ?_, ?_, ?_⟩
  · rw [detectionRows_getD_lt 320 320 20 examplePreds 0
      (by rw [show min (examplePreds.takeWhile fun p => !(p.class_id < 0)).length 20 =
        validCount examplePreds from rfl, validCount_examplePreds]; omega)]
    norm_num [yolonasRow, examplePreds, noPrediction]
  · rw [detectionRows_getD_lt 320 320 20 examplePreds 1
      (by rw [show min (examplePreds.takeWhile fun p => !(p.class_id < 0)).length 20 =
        validCount examplePreds from rfl, validCount_examplePreds]; omega)]
    norm_num [yolonasRow, examplePreds, noPrediction]
  · rw [detectionRows_getD_lt 320 320 20 examplePreds 2
      (by rw [show min (examplePreds.takeWhile fun p => !(p.class_id < 0)).length 20 =
        validCount examplePreds from rfl, validCount_examplePreds]; omega)]
    norm_num [yolonasRow, examplePreds, noPrediction]
  · intro i hi
    exact detectionRows_getD_ge 320 320 20 examplePreds i
      (by rw [show min (examplePreds.takeWhile fun p => !(p.class_id < 0)).length 20 =
        validCount examplePreds from rfl, validCount_examplePreds]; omega)

/-- C4 (witness): the canonical-array theorem applied to the three-detections
example, reading back row 0. -/
theorem detect_raw_yolonas_canonical_witness :
    (detectionRows 320 320 examplePreds 20).getD 0 zeroRow =
      yolonasRow 320 320 (examplePreds.getD 0 noPrediction) := by
  obtain ⟨R, hok, -, hlt, -, -⟩ := detect_raw_yolonas_canonical 320 320 examplePreds
  have hR : R = detectionRows 320 320 examplePreds 20 :=
    Except.ok.inj (hok.symm.trans rfl)
  rw [← hR]
  exact hlt 0 (by rw [validCount_examplePreds]; omega)

/-- C5: for every model family other than `yolonas`, `detect_raw` raises an
exception naming the unsupported model type and never returns an output
array. -/
theorem detect_raw_unsupported_model (mt : ModelTypeEnum) (h w : ℚ)
    (preds : List Prediction) (hmt : mt ≠ ModelTypeEnum.yolonas) :
    detect_raw mt h w preds = Except.error (modelTypeName mt ++
      " is currently not supported for rocm. See the docs for more info on supported models.") ∧
    ∀ R, detect_raw mt h w preds ≠ Except.ok R := by
  unfold detect_raw
  rw [if_neg hmt]
  exact ⟨rfl, fun R hc => by cases hc⟩

/-- C5 (witness): a `yolox` model makes `detect_raw` raise. -/
theorem detect_raw_unsupported_model_witness :
    detect_raw ModelTypeEnum.yolox 320 320 [] = Except.error
      (modelTypeName ModelTypeEnum.yolox ++
        " is currently not supported for rocm. See the docs for more info on supported models.") ∧
    ∀ R, detect_raw ModelTypeEnum.yolox 320 320 [] ≠ Except.ok R :=
  detect_raw_unsupported_model ModelTypeEnum.yolox 320 320 [] (by decide)

/- ### Lemmas about the start_detectors allocation loop -/

lemma nat_max_eq_or (a b : ℕ) : max a b = a ∨ max a b = b := by
  rcases Nat.le_total a b with h | h
  · right; exact Nat.max_eq_right h
  · left; exact Nat.max_eq_left h

lemma nat_max_le_iff (a b c : ℕ) : max b c ≤ a ↔ b ≤ a ∧ c ≤ a := Nat.max_le

lemma flatMap_pair_length {α β : Type _} (f g : α → β) :
    ∀ l : List α, (l.flatMap fun x => [f x, g x]).length = 2 * l.length := by
  intro l
  induction l with
  | nil => simp
  | cons x xs ih =>
    simp only [List.flatMap_cons, List.length_append, List.length_cons, ih]
    simp
    omega

lemma flatMap_pair_getD {α β : Type _} (f g : α → β) (d : β) (d0 : α) :
    ∀ (l : List α) (i : ℕ), i < l.length →
      (l.flatMap fun x => [f x, g x]).getD (2 * i) d = f (l.getD i d0) ∧
      (l.flatMap fun x => [f x, g x]).getD (2 * i + 1) d = g (l.getD i d0) := by
  intro l
  induction l with
  | nil => intro i hi; simp at hi
  | cons x xs ih =>
    intro i hi
    cases i with
    | zero =>
      simp [List.flatMap_cons]
    | succ j =>
      have h2 : 2 * (j + 1) = 2 * j + 1 + 1 := by ring
      rw [h2]
      simp only [List.flatMap_cons, List.cons_append, List.nil_append,
        List.getD_cons_succ]
      exact ih j (by simp only [List.length_cons] at hi; omega)

/-- C6: shared-memory acquisition in `start_detectors` is idempotent by name:
with at least one configured detector the allocation loop returns normally for
every pre-existing-segment environment (name conflicts are caught and turned
into attaches), and whenever a requested name already exists `acquireShm`
attaches to the existing segment of that name instead of failing. -/
theorem start_detectors_shm_idempotent (env : List (String × ℕ))
    (cams : List String) (dets : List DetectorModel) (hd : dets ≠ []) :
    (∃ hs, start_detectors_shms env cams dets = Except.ok hs) ∧
    (∀ nm sz, (env.lookup nm).isSome = true →
      (acquireShm env nm sz).created = false ∧ (acquireShm env nm sz).name = nm) := by
  constructor
  · unfold start_detectors_shms
    cases hm : (dets.map fun det => det.height * det.width * 3).max? with
    | none =>
      rw [List.max?_eq_none_iff, List.map_eq_nil_iff] at hm
      exact absurd hm hd
    | some m => exact ⟨_, rfl⟩
  · intro nm sz hsome
    obtain ⟨v, hv⟩ := Option.isSome_iff_exists.mp hsome
    unfold acquireShm
    rw [hv]
    exact ⟨rfl, rfl⟩

/-- C6 (witness): a stale segment named `cam1` of 100 bytes is attached, not
re-created, and `start_detectors` still succeeds. -/
theorem start_detectors_shm_idempotent_witness :
    (∃ hs, start_detectors_shms [("cam1", 100)] ["cam1"] [⟨320, 320⟩] =
      Except.ok hs) ∧
    (acquireShm [("cam1", 100)] "cam1" 307200).created = false ∧
    (acquireShm [("cam1", 100)] "cam1" 307200).name = "cam1" := by
  have h := start_detectors_shm_idempotent [("cam1", 100)] ["cam1"] [⟨320, 320⟩]
    (by simp)
  exact ⟨h.1, h.2 "cam1" 307200 (by decide)⟩

/-- C7: starting from a fresh environment, `start_detectors` creates, for the
i-th configured camera, an input segment named after the camera whose size is
the maximum over all configured detectors of `height * width * 3` bytes, and an
output segment named `out-<camera>` of exactly 480 bytes. -/
theorem start_detectors_segment_sizes (cams : List String)
    (dets : List DetectorModel) (hd : dets ≠ []) :
    ∃ m hs,
      (dets.map fun det => det.height * det.width * 3).max? = some m ∧
      (∀ det ∈ dets, det.height * det.width * 3 ≤ m) ∧
      (∃ det ∈ dets, det.height * det.width * 3 = m) ∧
      start_detectors_shms [] cams dets = Except.ok hs ∧
      hs.length = 2 * cams.length ∧
      (∀ i, i < cams.length →
        hs.getD (2 * i) noHandle = ⟨cams.getD i "", m, true⟩ ∧
        hs.getD (2 * i + 1) noHandle = ⟨"out-" ++ cams.getD i "", 480, true⟩) := by
  cases hm : (dets.map fun det => det.height * det.width * 3).max? with
  | none =>
    rw [List.max?_eq_none_iff, List.map_eq_nil_iff] at hm
    exact absurd hm hd
  | some m =>
    have hmem := List.max?_mem nat_max_eq_or hm
    have hle := (List.max?_le_iff nat_max_le_iff hm).mp (le_refl m)
    refine ⟨m, (cams.flatMap fun nm =>
      [acquireShm [] nm m, acquireShm [] ("out-" ++ nm) (20 * 6 * 4)]), rfl,
      ?_, ?_, ?_, ?_, ?_⟩
    · intro det hdet
      exact hle _ (List.mem_map_of_mem _ hdet)
    · obtain ⟨det, hdet, hdm⟩ := List.mem_map.mp hmem
      exact ⟨det, hdet, hdm⟩
    · unfold start_detectors_shms
      rw [hm]
    · exact flatMap_pair_length _ _ cams
    · intro i hi
      have h := flatMap_pair_getD
        (fun nm => acquireShm [] nm m)
        (fun nm => acquireShm [] ("out-" ++ nm) (20 * 6 * 4))
        noHandle "" cams i hi
      exact ⟨h.1, h.2⟩

/-- C7 (witness): one camera `front`, detectors at 720x1280 and 320x320: the
input segment gets the larger tensor size 720*1280*3 = 2764800 and the output
segment 480 bytes. -/
theorem start_detectors_segment_sizes_witness :
    ∃ m hs,
      (([⟨720, 1280⟩, ⟨320, 320⟩] : List DetectorModel).map
        (fun det => det.height * det.width * 3)).max? = some m ∧
      (∀ det ∈ ([⟨720, 1280⟩, ⟨320, 320⟩] : List DetectorModel),
        det.height * det.width * 3 ≤ m) ∧
      (∃ det ∈ ([⟨720, 1280⟩, ⟨320, 320⟩] : List DetectorModel),
        det.height * det.width * 3 = m) ∧
      start_detectors_shms [] ["front"] [⟨720, 1280⟩, ⟨320, 320⟩] = Except.ok hs ∧
      hs.length = 2 * (["front"] : List String).length ∧
      (∀ i, i < (["front"] : List String).length →
        hs.getD (2 * i) noHandle = ⟨(["front"] : List String).getD i "", m, true⟩ ∧
        hs.getD (2 * i + 1) noHandle =
          ⟨"out-" ++ (["front"] : List String).getD i "", 480, true⟩) :=
  start_detectors_segment_sizes ["front"] [⟨720, 1280⟩, ⟨320, 320⟩] (by simp)

/-- C8: in the startup sequence of `FrigateApp.start`, `bind_database` runs
strictly after `init_recording_manager`, `init_review_segment_manager` and
`init_embeddings_manager` — every store-accessing worker process is created
before the supervisor binds its writer connection. -/
theorem bind_database_after_store_workers :
    startSequence.indexOf StartStep.initRecordingManager <
      startSequence.indexOf StartStep.bindDatabase ∧
    startSequence.indexOf StartStep.initReviewSegmentManager <
      startSequence.indexOf StartStep.bindDatabase ∧
    startSequence.indexOf StartStep.initEmbeddingsManager <
      startSequence.indexOf StartStep.bindDatabase := by
  refine ⟨?_, ?_, ?_⟩ <;> decide

/-- C9: in `FrigateApp.stop`, the detector stop, capture-process stop and
camera-processor stop all precede the shared-memory release loop; every
shutdown step occurs in the sequence; the release loop closes and unlinks
every registered segment (emptying the registry); and the only step after the
release loop is stopping the log process. -/
theorem stop_releases_segments_last :
    (∀ s ∈ [StopStep.stopDetectors, StopStep.stopCaptureProcesses,
        StopStep.stopCameraProcessors],
      stopSequence.indexOf s < stopSequence.indexOf StopStep.releaseShms) ∧
    (∀ s : StopStep, s ∈ stopSequence) ∧
    (∀ segs : List ShmState, (releaseAllShms segs).length = segs.length) ∧
    (∀ segs : List ShmState, ∀ r ∈ releaseAllShms segs,
      r.closed = true ∧ r.unlinked = true) ∧
    stopSequence.drop (stopSequence.indexOf StopStep.releaseShms + 1) =
      [StopStep.stopLogProcess] := by
  refine ⟨by decide, ?_, ?_, ?_, by decide⟩
  · intro s
    cases s <;> decide
  · intro segs
    simp [releaseAllShms]
  · intro segs r hr
    simp only [releaseAllShms, List.mem_map] at hr
    obtain ⟨s, -, rfl⟩ := hr
    exact ⟨rfl, rfl⟩

/-- C9 (witness): with one registered segment, the release loop closes and
unlinks it, and the detector stop precedes the release step. -/
theorem stop_releases_segments_last_witness :
    stopSequence.indexOf StopStep.stopDetectors <
      stopSequence.indexOf StopStep.releaseShms ∧
    (releaseAllShms [⟨"front", false, false⟩]).length = 1 ∧
    (⟨"front", true, true⟩ : ShmState).closed = true ∧
    (⟨"front", true, true⟩ : ShmState).unlinked = true := by
  have h := stop_releases_segments_last
  refine ⟨h.1 StopStep.stopDetectors (by decide), h.2.2.1 [⟨"front", false, false⟩],
    h.2.2.2.1 [⟨"front", false, false⟩] ⟨"front", true, true⟩ (by decide)⟩

end Frigate

